import Mathlib

/-!
Shallow embedding of the dynamic-print-app print subsystem:
the template registry, the print orchestrator (`PrintService` in
`src/app/core/services/print.service.ts`), the render host
(`PrintPreviewComponent` in
`src/app/shared/components/print-preview/print-preview.component.ts`) and
the option fallbacks of `BasePrintTemplateComponent`
(`src/app/shared/print-templates/base/base-print-template.component.ts`).

JavaScript object properties are modelled with `JsVal`: a property slot is
either absent from the object, present with the value `undefined`, or
present with a defined value.  This distinction is what the spread
operator `\x7b ...defaults, ...options \x7d` observes: a present
`undefined` property overrides the default, an absent one does not.
-/

namespace DynamicPrint

/-- Page orientation (`print.models.ts`). -/
inductive Orientation
  | portrait
  | landscape
deriving DecidableEq, Repr

/-- Page size (`print.models.ts`). -/
inductive PageSize
  | A4
  | Letter
  | Legal
deriving DecidableEq, Repr

/-- A JavaScript object property slot: absent, present but `undefined`,
or present with a defined value. -/
inductive JsVal (α : Type)
  | absent
  | undef
  | val (a : α)
deriving DecidableEq, Repr

/-- A slot holds a defined value. -/
def JsVal.defined : JsVal α → Bool
  | .val _ => true
  | _ => false

/-- A slot is not the explicit `undefined` value (it is absent or defined). -/
def JsVal.notUndef : JsVal α → Bool
  | .undef => false
  | _ => true

/-- Reading a property with `?.` : both an absent and an `undefined`
property read as `undefined` (here `none`). -/
def JsVal.read : JsVal α → Option α
  | .val a => some a
  | _ => none

/-- Opaque handle of a renderable component (`Type<any>` in the source). -/
abbrev Renderer := Nat

/-- Opaque caller payload (`data: any`). -/
abbrev Payload := Nat

/-- `PrintOptions` of `print.models.ts`: every field optional, modelled as a
JavaScript property slot.  Field order follows the source interface. -/
structure PrintOptions where
  orientation : JsVal Orientation
  pageSize : JsVal PageSize
  showHeader : JsVal Bool
  showFooter : JsVal Bool
  showPageNumbers : JsVal Bool
  title : JsVal String
  headerData : JsVal (List (String × String))
  footerData : JsVal (List (String × String))
  rtl : JsVal Bool
  watermark : JsVal String
  copies : JsVal Nat
deriving DecidableEq, Repr

/-- The caller options object with no property set. -/
def PrintOptions.empty : PrintOptions :=
  ⟨.absent, .absent, .absent, .absent, .absent, .absent, .absent, .absent,
   .absent, .absent, .absent⟩

/-- `PrintConfig` of `print.models.ts`: template key, payload, optional
options (the whole options object may be `undefined`, hence `Option`). -/
structure PrintConfig where
  templateKey : String
  data : Payload
  options : Option PrintOptions
deriving DecidableEq, Repr

/-- `PrintTemplate` of `print.models.ts`: a registered template descriptor. -/
structure PrintTemplate where
  key : String
  component : Renderer
  description : Option String
deriving DecidableEq, Repr

/-- `PrintPreviewData` handed from `PrintService.preview` to the preview
dialog component.  `templateComponent` is `Option` so the null-check
the render host performs on it is expressible. -/
structure PrintPreviewData where
  templateComponent : Option Renderer
  data : Payload
  options : PrintOptions
deriving DecidableEq, Repr

/-- One property of the spread `\x7b ...defaults, ...options \x7d`: a
property present on `options` (even with value `undefined`) overrides the
default; an absent property falls through to the default. -/
def mergeField (d : α) : JsVal α → JsVal α
  | .absent => .val d
  | .undef => .undef
  | .val a => .val a

/-- The `defaults` object literal of `PrintService.mergeDefaultOptions`.
It sets exactly the eight documented fields; `headerData`, `footerData`
and `watermark` are not present on it. -/
def defaultOptions : PrintOptions :=
  { orientation := .val .portrait
    pageSize := .val .A4
    showHeader := .val true
    showFooter := .val true
    showPageNumbers := .val false
    title := .val "Document"
    headerData := .absent
    footerData := .absent
    rtl := .val false
    watermark := .absent
    copies := .val 1 }

/-- `PrintService.mergeDefaultOptions(options?)`: returns
`\x7b ...defaults, ...options \x7d`.  Spreading `undefined` (the `none`
case) is a no-op, so the result is the defaults object. -/
def mergeDefaultOptions : Option PrintOptions → PrintOptions
  | none => defaultOptions
  | some o =>
    { orientation := mergeField .portrait o.orientation
      pageSize := mergeField .A4 o.pageSize
      showHeader := mergeField true o.showHeader
      showFooter := mergeField true o.showFooter
      showPageNumbers := mergeField false o.showPageNumbers
      title := mergeField "Document" o.title
      headerData := o.headerData
      footerData := o.footerData
      rtl := mergeField false o.rtl
      watermark := o.watermark
      copies := mergeField 1 o.copies }

/-- All eight defaulted fields of an options object hold defined values. -/
def PrintOptions.fullyPopulated (o : PrintOptions) : Bool :=
  o.orientation.defined && o.pageSize.defined && o.showHeader.defined &&
  o.showFooter.defined && o.showPageNumbers.defined && o.title.defined &&
  o.rtl.defined && o.copies.defined

/-- None of the eight defaulted fields is present with value `undefined`. -/
def PrintOptions.noUndefDefaulted (o : PrintOptions) : Bool :=
  o.orientation.notUndef && o.pageSize.notUndef && o.showHeader.notUndef &&
  o.showFooter.notUndef && o.showPageNumbers.notUndef && o.title.notUndef &&
  o.rtl.notUndef && o.copies.notUndef

/-!
Computed option fallbacks of `BasePrintTemplateComponent`.  The component
receives `options?: PrintOptions` (possibly `undefined`, hence
`Option PrintOptions`) and each computed field reads
`this.optionsSignal()?.field ?? default`.
-/

/-- `optionsSignal()?.f` : `undefined` when the options object is
`undefined` or the property is absent/`undefined`. -/
def optRead (v : Option PrintOptions) (f : PrintOptions → JsVal α) : Option α :=
  match v with
  | none => none
  | some o => (f o).read

/-- `computed(() => this.optionsSignal()?.showHeader ?? true)`. -/
def templateShowHeader (v : Option PrintOptions) : Bool :=
  (optRead v (fun o => o.showHeader)).getD true

/-- `computed(() => this.optionsSignal()?.showFooter ?? true)`. -/
def templateShowFooter (v : Option PrintOptions) : Bool :=
  (optRead v (fun o => o.showFooter)).getD true

/-- `computed(() => this.optionsSignal()?.pageSize ?? A4)`. -/
def templatePageSize (v : Option PrintOptions) : PageSize :=
  (optRead v (fun o => o.pageSize)).getD .A4

/-- `computed(() => this.optionsSignal()?.orientation ?? portrait)`. -/
def templateOrientation (v : Option PrintOptions) : Orientation :=
  (optRead v (fun o => o.orientation)).getD .portrait

/-- `computed(() => this.optionsSignal()?.rtl ?? false)` (`isRtl`). -/
def templateIsRtl (v : Option PrintOptions) : Bool :=
  (optRead v (fun o => o.rtl)).getD false

/-- `computed(() => this.optionsSignal()?.title ?? Document)`. -/
def templateTitle (v : Option PrintOptions) : String :=
  (optRead v (fun o => o.title)).getD "Document"

/-- `computed(() => this.optionsSignal()?.showPageNumbers ?? false)`. -/
def templateShowPageNumbers (v : Option PrintOptions) : Bool :=
  (optRead v (fun o => o.showPageNumbers)).getD false

/-!
The registry map.  `PrintService.templateRegistry` is a JavaScript `Map`:
`set` on an existing key replaces the value in place (keeping insertion
order), otherwise it appends; `keys()` iterates in insertion order.  It is
modelled as an association list whose keys are unique (every mutation goes
through `mapSet` / `mapDelete`).
-/

/-- JavaScript `Map.set`: replace in place if the key exists, else append. -/
def mapSet (m : List (String × β)) (k : String) (v : β) : List (String × β) :=
  match m with
  | [] => [(k, v)]
  | p :: rest => if p.1 = k then (k, v) :: rest else p :: mapSet rest k v

/-- JavaScript `Map.get`: first (only) binding of the key, if any. -/
def mapGet (m : List (String × β)) (k : String) : Option β :=
  match m with
  | [] => none
  | p :: rest => if p.1 = k then some p.2 else mapGet rest k

/-!
The orchestrator (`PrintService`).  Observable side effects are recorded
as a list of events.  `closeIssued s` is a `DialogRef.close()` call on
session `s`; in `@angular/cdk/dialog` `close()` runs the `closed`
subscribers synchronously, so the subscription installed by `preview`
(set `activeDialogRef = null`, resolve the promise of that session) fires
during the call, recorded as `promiseResolved s`.  `dialogOpened s` is
`this.dialog.open(...)` creating session `s`; `nativePrintScheduled` is a
scheduled `window.print()` (`setTimeout`).  There is no error-level
event: the only failure channel of the service is the `Except.error`
thrown by `preview` / `printDirect` on a missing template key.
-/

/-- Observable side effects of the orchestrator. -/
inductive Event
  | warnOverwrite (key : String)
  | logRegistered (key : String)
  | closeIssued (session : Nat)
  | promiseResolved (session : Nat)
  | dialogOpened (session : Nat)
  | nativePrintScheduled
deriving DecidableEq, Repr

/-- Mutable state of a `PrintService` instance: the registry map, the
active dialog reference (a session identifier, `null` as `none`), and a
counter supplying fresh session identifiers. -/
structure ServiceState where
  templateRegistry : List (String × PrintTemplate)
  activeDialogRef : Option Nat
  nextId : Nat
deriving DecidableEq, Repr

/-- A freshly constructed service: empty registry, no active dialog. -/
def ServiceState.init : ServiceState := ⟨[], none, 0⟩

namespace PrintService

/-- `getTemplate(key)`: registry lookup, `undefined` as `none`. -/
def getTemplate (s : ServiceState) (key : String) : Option PrintTemplate :=
  mapGet s.templateRegistry key

/-- `getRegisteredTemplates()`: the keys in insertion order. -/
def getRegisteredTemplates (s : ServiceState) : List String :=
  s.templateRegistry.map Prod.fst

/-- `hasTemplate(key)`. -/
def hasTemplate (s : ServiceState) (key : String) : Bool :=
  (mapGet s.templateRegistry key).isSome

/-- `registerTemplate(key, component, description?)`: warns (never
throws) when the key is already present, then stores the descriptor.
Total: its result type has no error branch, matching the `void`
return of the source, which has no `throw`. -/
def registerTemplate (s : ServiceState) (key : String) (component : Renderer)
    (description : Option String) : ServiceState × List Event :=
  let warnings := if (mapGet s.templateRegistry key).isSome
    then [Event.warnOverwrite key] else []
  ({ s with templateRegistry :=
      mapSet s.templateRegistry key ⟨key, component, description⟩ },
   warnings ++ [Event.logRegistered key])

/-- The single-quote character, used in the error messages of the service. -/
def sq : String := String.singleton (Char.ofNat 39)

/-- The error message `preview` throws for a missing key:
`Print template <sq>k<sq> not found. Available templates: ...`, where the
key list is joined with a comma and an empty join falls back to `none`
(the JavaScript or-else on the empty joined string). -/
def notFoundMsg (k : String) (keys : List String) : String :=
  let availableTemplates := String.intercalate ", " keys
  "Print template " ++ sq ++ k ++ sq ++ " not found. " ++
    "Available templates: " ++
    (if availableTemplates = "" then "none" else availableTemplates)

/-- `preview(config)`: looks the key up and throws (models as
`Except.error`) with `notFoundMsg` when absent.  Otherwise builds the
`PrintPreviewData` with merged options, issues a close on any active
dialog (whose `closed` subscription runs synchronously: it nulls the
reference and resolves the promise of that older preview), opens the new
dialog and stores its reference.  The returned promise of the source
resolves when this new dialog closes; it has no reject path. -/
def preview (s : ServiceState) (config : PrintConfig) :
    Except String (ServiceState × List Event × PrintPreviewData) :=
  match mapGet s.templateRegistry config.templateKey with
  | none => .error (notFoundMsg config.templateKey (getRegisteredTemplates s))
  | some template =>
    let previewData : PrintPreviewData :=
      { templateComponent := some template.component
        data := config.data
        options := mergeDefaultOptions config.options }
    match s.activeDialogRef with
    | some old =>
      .ok ({ s with activeDialogRef := some s.nextId, nextId := s.nextId + 1 },
        [.closeIssued old, .promiseResolved old, .dialogOpened s.nextId],
        previewData)
    | none =>
      .ok ({ s with activeDialogRef := some s.nextId, nextId := s.nextId + 1 },
        [.dialogOpened s.nextId], previewData)

/-- `print()`: unconditionally schedules `window.print()` on a fixed
250 ms delay; reads no state and throws nothing. -/
def print (s : ServiceState) : ServiceState × List Event :=
  (s, [Event.nativePrintScheduled])

/-- `printDirect(config)`: re-checks the key itself and throws the short
message `Print template <sq>k<sq> not found` (without the available-key
list), otherwise delegates to `preview` and additionally schedules the
auto-print (`setTimeout(() => this.print(), 100)`). -/
def printDirect (s : ServiceState) (config : PrintConfig) :
    Except String (ServiceState × List Event × PrintPreviewData) :=
  match mapGet s.templateRegistry config.templateKey with
  | none =>
    .error ("Print template " ++ sq ++ config.templateKey ++ sq ++ " not found")
  | some _ =>
    match preview s config with
    | .error e => .error e
    | .ok (s1, events, previewData) =>
      match print s1 with
      | (s2, printEvents) => .ok (s2, events ++ printEvents, previewData)

/-- `closePreview()`: if a dialog is active, close it (its `closed`
subscription nulls the reference and resolves the pending promise) and
null the reference; otherwise do nothing.  Never throws. -/
def closePreview (s : ServiceState) : ServiceState × List Event :=
  match s.activeDialogRef with
  | some sid =>
    ({ s with activeDialogRef := none },
     [Event.closeIssued sid, Event.promiseResolved sid])
  | none => (s, [])

end PrintService

/-!
The render host (`PrintPreviewComponent`).  Its state is the pair of
signals `isLoading` (initially `true`) and `error` (initially `null`).
`loadTemplate` runs once after view init: inside a `try`, it throws if
the `ViewContainerRef` mount point is unavailable or the resolved
renderer handle (`data.templateComponent`) is null; the `catch` sets the
error signal and clears `isLoading`.  On success it instantiates the
component and clears `isLoading` with no error.
-/

/-- The two state signals of the preview dialog component. -/
structure HostState where
  isLoading : Bool
  error : Option String
deriving DecidableEq, Repr

/-- Host state when the dialog opens: loading, no error. -/
def HostState.opening : HostState := ⟨true, none⟩

/-- The message the catch block of `loadTemplate` writes to the error signal. -/
def loadFailedMsg : String := "Failed to load print template. Please try again."

/-- `PrintPreviewComponent.loadTemplate()` as a function of whether the
mount point is available and of the preview data. -/
def loadTemplate (mountAvailable : Bool) (previewData : PrintPreviewData) :
    HostState :=
  if !mountAvailable then ⟨false, some loadFailedMsg⟩
  else match previewData.templateComponent with
    | none => ⟨false, some loadFailedMsg⟩
    | some _ => ⟨false, none⟩

/-- `isReady` computed signal: not loading and no error. -/
def HostState.isReady (h : HostState) : Bool :=
  !h.isLoading && h.error.isNone

/-- Possible observations of a single-shot promise. -/
inductive PromiseOutcome
  | pending
  | resolved
  | rejected (msg : String)
deriving DecidableEq, Repr

/-- Outcome of the promise `preview` returns, as a function of whether the
dialog of the session has closed.  The executor subscribes only
`resolve()` to the `closed` event of the dialog and never invokes a
rejection, so the promise
is pending until close and resolved afterwards. -/
def previewPromiseOutcome (dialogClosed : Bool) : PromiseOutcome :=
  if dialogClosed then .resolved else .pending

/-!
Concrete fixtures used to evaluate the model on closed inputs.
-/

/-- The built-in invoice descriptor of `register-templates.ts` (renderer
handles are opaque numbers here). -/
def invoiceTemplate : PrintTemplate :=
  ⟨"invoice", 1, some "Professional invoice template with itemized billing"⟩

/-- A service with exactly the invoice template registered and no active
dialog. -/
def oneTemplateState : ServiceState :=
  ⟨[("invoice", invoiceTemplate)], none, 0⟩

/-- A caller options object whose only property is `pageSize`, present
with the explicit value `undefined`. -/
def undefPageSizeOptions : PrintOptions :=
  { PrintOptions.empty with pageSize := .undef }

/-!
Helper lemmas, shared between the claims below.
-/

theorem mergeField_of_val (d : α) {x : JsVal α} {a : α} (h : x = .val a) :
    mergeField d x = .val a := by subst h; rfl

theorem mergeField_of_absent (d : α) {x : JsVal α} (h : x = .absent) :
    mergeField d x = .val d := by subst h; rfl

theorem read_getD_mergeField (d : α) (x : JsVal α) :
    ((mergeField d x).read).getD d = (x.read).getD d := by
  cases x <;> rfl

theorem defined_mergeField (d : α) :
    ∀ x : JsVal α, x.notUndef = true → (mergeField d x).defined = true
  | .absent, _ => rfl
  | .val _, _ => rfl
  | .undef, h => by simp [JsVal.notUndef] at h

theorem mapGet_mapSet_self (m : List (String × β)) (k : String) (v : β) :
    mapGet (mapSet m k v) k = some v := by
  induction m with
  | nil => simp [mapSet, mapGet]
  | cons p rest ih =>
    by_cases h : p.1 = k
    · simp [mapSet, h, mapGet]
    · simp [mapSet, h, mapGet, ih]

theorem keys_mapSet (m : List (String × β)) (k : String) (v : β) :
    (mapSet m k v).map Prod.fst =
      if k ∈ m.map Prod.fst then m.map Prod.fst else m.map Prod.fst ++ [k] := by
  induction m with
  | nil => simp [mapSet]
  | cons p rest ih =>
    by_cases h : p.1 = k
    · simp [mapSet, h]
    · have hne : ¬(k = p.1) := fun hk => h hk.symm
      by_cases hm : k ∈ rest.map Prod.fst
      · simp [mapSet, h, ih, hm, hne]
      · simp [mapSet, h, ih, hm, hne]

theorem mem_keys_mapSet (m : List (String × β)) (k : String) (v : β) :
    k ∈ (mapSet m k v).map Prod.fst := by
  rw [keys_mapSet]
  by_cases hm : k ∈ m.map Prod.fst
  · simp [hm]
  · simp [hm]

/-- Evaluating `preview` when the lookup succeeds. -/
theorem preview_eq_of_found {s : ServiceState} {config : PrintConfig}
    {t : PrintTemplate}
    (h : mapGet s.templateRegistry config.templateKey = some t) :
    PrintService.preview s config =
      (match s.activeDialogRef with
        | some old =>
          .ok ({ s with activeDialogRef := some s.nextId, nextId := s.nextId + 1 },
            [.closeIssued old, .promiseResolved old, .dialogOpened s.nextId],
            ⟨some t.component, config.data, mergeDefaultOptions config.options⟩)
        | none =>
          .ok ({ s with activeDialogRef := some s.nextId, nextId := s.nextId + 1 },
            [.dialogOpened s.nextId],
            ⟨some t.component, config.data, mergeDefaultOptions config.options⟩)) := by
  unfold PrintService.preview
  rw [h]

/-- Evaluating `preview` when the lookup fails. -/
theorem preview_eq_of_missing {s : ServiceState} {config : PrintConfig}
    (h : mapGet s.templateRegistry config.templateKey = none) :
    PrintService.preview s config =
      .error (PrintService.notFoundMsg config.templateKey
        (PrintService.getRegisteredTemplates s)) := by
  unfold PrintService.preview
  rw [h]

/-- The preview data handed to the dialog always carries the merged
options. -/
theorem preview_ok_options {s : ServiceState} {config : PrintConfig}
    {out : ServiceState × List Event × PrintPreviewData}
    (hok : PrintService.preview s config = .ok out) :
    out.2.2.options = mergeDefaultOptions config.options := by
  cases hm : mapGet s.templateRegistry config.templateKey with
  | none => rw [preview_eq_of_missing hm] at hok; exact absurd hok (by simp)
  | some t =>
    rw [preview_eq_of_found hm] at hok
    cases hact : s.activeDialogRef with
    | some old =>
      rw [hact] at hok
      simp only [Except.ok.injEq] at hok
      rw [← hok]
    | none =>
      rw [hact] at hok
      simp only [Except.ok.injEq] at hok
      rw [← hok]

/-- A merge whose input has no explicitly-`undefined` defaulted field is
fully populated. -/
theorem fullyPopulated_merge (v : Option PrintOptions)
    (h : ∀ o, v = some o → o.noUndefDefaulted = true) :
    (mergeDefaultOptions v).fullyPopulated = true := by
  cases v with
  | none => rfl
  | some o =>
    have ho := h o rfl
    simp only [PrintOptions.noUndefDefaulted, Bool.and_eq_true] at ho
    obtain ⟨⟨⟨⟨⟨⟨⟨h1, h2⟩, h3⟩, h4⟩, h5⟩, h6⟩, h7⟩, h8⟩ := ho
    simp only [mergeDefaultOptions, PrintOptions.fullyPopulated, Bool.and_eq_true]
    exact ⟨⟨⟨⟨⟨⟨⟨defined_mergeField _ _ h1, defined_mergeField _ _ h2⟩,
      defined_mergeField _ _ h3⟩, defined_mergeField _ _ h4⟩,
      defined_mergeField _ _ h5⟩, defined_mergeField _ _ h6⟩,
      defined_mergeField _ _ h7⟩, defined_mergeField _ _ h8⟩

/-!
Claim theorems.
-/

/-- C4: option merging is a shallow merge over the documented defaults.
Concretely, options with only `pageSize := Legal` merge to the default
table with `pageSize` replaced, and absent caller options merge to
exactly the documented default table (orientation portrait, pageSize A4,
showHeader true, showFooter true, showPageNumbers false, title Document,
rtl false, copies 1).  Generally, for each of the eight defaulted fields,
a present key overrides the default and an absent key takes the
documented default. -/
theorem c4_shallow_merge_defaults :
    (mergeDefaultOptions (some { PrintOptions.empty with pageSize := .val .Legal }) =
      { defaultOptions with pageSize := .val .Legal }) ∧
    (mergeDefaultOptions none =
      ⟨.val .portrait, .val .A4, .val true, .val true, .val false,
       .val "Document", .absent, .absent, .val false, .absent, .val 1⟩) ∧
    (∀ o : PrintOptions,
      (∀ a, o.orientation = .val a → (mergeDefaultOptions (some o)).orientation = .val a) ∧
      (o.orientation = .absent → (mergeDefaultOptions (some o)).orientation = .val .portrait) ∧
      (∀ a, o.pageSize = .val a → (mergeDefaultOptions (some o)).pageSize = .val a) ∧
      (o.pageSize = .absent → (mergeDefaultOptions (some o)).pageSize = .val .A4) ∧
      (∀ a, o.showHeader = .val a → (mergeDefaultOptions (some o)).showHeader = .val a) ∧
      (o.showHeader = .absent → (mergeDefaultOptions (some o)).showHeader = .val true) ∧
      (∀ a, o.showFooter = .val a → (mergeDefaultOptions (some o)).showFooter = .val a) ∧
      (o.showFooter = .absent → (mergeDefaultOptions (some o)).showFooter = .val true) ∧
      (∀ a, o.showPageNumbers = .val a → (mergeDefaultOptions (some o)).showPageNumbers = .val a) ∧
      (o.showPageNumbers = .absent → (mergeDefaultOptions (some o)).showPageNumbers = .val false) ∧
      (∀ a, o.title = .val a → (mergeDefaultOptions (some o)).title = .val a) ∧
      (o.title = .absent → (mergeDefaultOptions (some o)).title = .val "Document") ∧
      (∀ a, o.rtl = .val a → (mergeDefaultOptions (some o)).rtl = .val a) ∧
      (o.rtl = .absent → (mergeDefaultOptions (some o)).rtl = .val false) ∧
      (∀ a, o.copies = .val a → (mergeDefaultOptions (some o)).copies = .val a) ∧
      (o.copies = .absent → (mergeDefaultOptions (some o)).copies = .val 1)) :=
  ⟨rfl, rfl, fun _ =>
    ⟨fun _ h => mergeField_of_val _ h, fun h => mergeField_of_absent _ h,
     fun _ h => mergeField_of_val _ h, fun h => mergeField_of_absent _ h,
     fun _ h => mergeField_of_val _ h, fun h => mergeField_of_absent _ h,
     fun _ h => mergeField_of_val _ h, fun h => mergeField_of_absent _ h,
     fun _ h => mergeField_of_val _ h, fun h => mergeField_of_absent _ h,
     fun _ h => mergeField_of_val _ h, fun h => mergeField_of_absent _ h,
     fun _ h => mergeField_of_val _ h, fun h => mergeField_of_absent _ h,
     fun _ h => mergeField_of_val _ h, fun h => mergeField_of_absent _ h⟩⟩

/-- C4 witness: the general part of the merge theorem evaluated on a
concrete options object with only `orientation := landscape` set. -/
theorem c4_shallow_merge_defaults_witness :
    (mergeDefaultOptions
      (some { PrintOptions.empty with orientation := .val .landscape })).orientation =
        .val .landscape ∧
    (mergeDefaultOptions
      (some { PrintOptions.empty with orientation := .val .landscape })).pageSize =
        .val .A4 :=
  ⟨(c4_shallow_merge_defaults.2.2
      { PrintOptions.empty with orientation := .val .landscape }).1 _ rfl,
   ((c4_shallow_merge_defaults.2.2
      { PrintOptions.empty with orientation := .val .landscape }).2.2.2.1) rfl⟩

/-- C5 counterexample: a caller options object whose `pageSize` key is
present with value `undefined` merges (by the spread semantics) to an
options value whose `pageSize` is `undefined`, so the value the
orchestrator hands to the dialog is not fully populated; the claim fails
as stated on this input. -/
theorem c5_counterexample :
    (mergeDefaultOptions (some undefPageSizeOptions)).pageSize = JsVal.undef ∧
    (mergeDefaultOptions (some undefPageSizeOptions)).fullyPopulated = false ∧
    ((PrintService.preview oneTemplateState
        ⟨"invoice", 0, some undefPageSizeOptions⟩).toOption.map
      (fun r => r.2.2.options.fullyPopulated)) = some false :=
  ⟨rfl, rfl, rfl⟩

/-- C5 amended: for every caller-supplied options value none of whose
recognized defaulted keys is present with the explicit value `undefined`
(absent keys and defined values are unrestricted, and the whole options
object may be absent), the options value `preview` hands to the render
host and template is fully populated: all eight defaulted fields are
defined. -/
theorem c5_merged_options_fully_populated (s : ServiceState)
    (config : PrintConfig) (out : ServiceState × List Event × PrintPreviewData)
    (hok : PrintService.preview s config = .ok out)
    (hdef : ∀ o, config.options = some o → o.noUndefDefaulted = true) :
    out.2.2.options.fullyPopulated = true := by
  rw [preview_ok_options hok]
  exact fullyPopulated_merge _ hdef

/-- C5 witness: a preview of the registered invoice template with absent
caller options yields fully populated merged options. -/
theorem c5_merged_options_fully_populated_witness :
    ((⟨[("invoice", invoiceTemplate)], some 0, 1⟩ : ServiceState),
      ([Event.dialogOpened 0] : List Event),
      (⟨some invoiceTemplate.component, 0, defaultOptions⟩ :
        PrintPreviewData)).2.2.options.fullyPopulated = true :=
  c5_merged_options_fully_populated oneTemplateState ⟨"invoice", 0, none⟩
    _ rfl (fun _ h => nomatch h)

/-- C10: the option fallbacks of `BasePrintTemplateComponent` agree with
the defaults of the orchestrator: each of the seven computed fields reads
the same value from the raw caller options as from the merged options, so
applying `mergeDefaultOptions` before the `??` fallbacks of the template
never changes what a template displays. -/
theorem c10_template_fallbacks_agree_with_merge (v : Option PrintOptions) :
    templateShowHeader (some (mergeDefaultOptions v)) = templateShowHeader v ∧
    templateShowFooter (some (mergeDefaultOptions v)) = templateShowFooter v ∧
    templatePageSize (some (mergeDefaultOptions v)) = templatePageSize v ∧
    templateOrientation (some (mergeDefaultOptions v)) = templateOrientation v ∧
    templateIsRtl (some (mergeDefaultOptions v)) = templateIsRtl v ∧
    templateTitle (some (mergeDefaultOptions v)) = templateTitle v ∧
    templateShowPageNumbers (some (mergeDefaultOptions v)) =
      templateShowPageNumbers v := by
  cases v with
  | none => exact ⟨rfl, rfl, rfl, rfl, rfl, rfl, rfl⟩
  | some o =>
    exact ⟨read_getD_mergeField true o.showHeader,
      read_getD_mergeField true o.showFooter,
      read_getD_mergeField PageSize.A4 o.pageSize,
      read_getD_mergeField Orientation.portrait o.orientation,
      read_getD_mergeField false o.rtl,
      read_getD_mergeField "Document" o.title,
      read_getD_mergeField false o.showPageNumbers⟩

/-- C10 witness: the agreement evaluated on the options object whose
`pageSize` is present but `undefined` (both readings fall back to A4). -/
theorem c10_template_fallbacks_agree_with_merge_witness :
    templateShowHeader (some (mergeDefaultOptions (some undefPageSizeOptions))) =
      templateShowHeader (some undefPageSizeOptions) ∧
    templateShowFooter (some (mergeDefaultOptions (some undefPageSizeOptions))) =
      templateShowFooter (some undefPageSizeOptions) ∧
    templatePageSize (some (mergeDefaultOptions (some undefPageSizeOptions))) =
      templatePageSize (some undefPageSizeOptions) ∧
    templateOrientation (some (mergeDefaultOptions (some undefPageSizeOptions))) =
      templateOrientation (some undefPageSizeOptions) ∧
    templateIsRtl (some (mergeDefaultOptions (some undefPageSizeOptions))) =
      templateIsRtl (some undefPageSizeOptions) ∧
    templateTitle (some (mergeDefaultOptions (some undefPageSizeOptions))) =
      templateTitle (some undefPageSizeOptions) ∧
    templateShowPageNumbers
        (some (mergeDefaultOptions (some undefPageSizeOptions))) =
      templateShowPageNumbers (some undefPageSizeOptions) :=
  c10_template_fallbacks_agree_with_merge (some undefPageSizeOptions)

/-- C2: a `preview` on a key with no registered descriptor throws the
diagnostic carrying the requested key and the joined list of currently
registered keys; on an empty registry the message lists `none` as the
available templates; a `preview` on a registered key never throws this
(or any) error. -/
theorem c2_preview_not_found_diagnostics :
    (∀ data opts,
      PrintService.preview ServiceState.init ⟨"missing", data, opts⟩ =
        .error ("Print template " ++ PrintService.sq ++ "missing" ++
          PrintService.sq ++ " not found. Available templates: none")) ∧
    (∀ s config, mapGet s.templateRegistry config.templateKey = none →
      PrintService.preview s config =
        .error (PrintService.notFoundMsg config.templateKey
          (PrintService.getRegisteredTemplates s))) ∧
    (∀ s config t, mapGet s.templateRegistry config.templateKey = some t →
      ∃ out, PrintService.preview s config = .ok out) := by
  refine ⟨fun data opts => ?_, fun s config h => preview_eq_of_missing h,
    fun s config t h => ?_⟩
  · rfl
  · rw [preview_eq_of_found h]
    cases s.activeDialogRef <;> exact ⟨_, rfl⟩

/-- C2 witness: the not-found diagnostic on a registry holding only the
invoice template names that key, and previewing the registered key
succeeds. -/
theorem c2_preview_not_found_diagnostics_witness :
    PrintService.preview oneTemplateState ⟨"missing", 0, none⟩ =
      .error (PrintService.notFoundMsg "missing" ["invoice"]) ∧
    (∃ out, PrintService.preview oneTemplateState ⟨"invoice", 0, none⟩ =
      .ok out) :=
  ⟨c2_preview_not_found_diagnostics.2.1 oneTemplateState ⟨"missing", 0, none⟩ rfl,
   c2_preview_not_found_diagnostics.2.2 oneTemplateState ⟨"invoice", 0, none⟩
     invoiceTemplate rfl⟩

/-- C3: registering the same key twice is last-write-wins.  After
`registerTemplate(k, r1)` then `registerTemplate(k, r2)` on a registry
with unique keys, `getTemplate(k)` returns the descriptor holding `r2`,
`getRegisteredTemplates()` lists `k` exactly once, and the second
registration emits only a warning and a log event — `registerTemplate`
is total, so no error can be raised. -/
theorem c3_register_last_write_wins (s : ServiceState) (k : String)
    (r1 r2 : Renderer) (d1 d2 : Option String)
    (hnd : (PrintService.getRegisteredTemplates s).Nodup) :
    PrintService.getTemplate
        ((PrintService.registerTemplate
          ((PrintService.registerTemplate s k r1 d1).1) k r2 d2).1) k =
      some ⟨k, r2, d2⟩ ∧
    (PrintService.getRegisteredTemplates
        ((PrintService.registerTemplate
          ((PrintService.registerTemplate s k r1 d1).1) k r2 d2).1)).count k = 1 ∧
    (PrintService.registerTemplate
        ((PrintService.registerTemplate s k r1 d1).1) k r2 d2).2 =
      [Event.warnOverwrite k, Event.logRegistered k] := by
  refine ⟨mapGet_mapSet_self _ _ _, ?_, ?_⟩
  · show ((mapSet (mapSet s.templateRegistry k ⟨k, r1, d1⟩) k
      ⟨k, r2, d2⟩).map Prod.fst).count k = 1
    rw [keys_mapSet, if_pos (mem_keys_mapSet _ _ _), keys_mapSet]
    by_cases hm : k ∈ s.templateRegistry.map Prod.fst
    · rw [if_pos hm]
      exact List.count_eq_one_of_mem hnd hm
    · rw [if_neg hm, List.count_append]
      rw [List.count_eq_zero.mpr hm]
      simp
  · show (if (mapGet (mapSet s.templateRegistry k ⟨k, r1, d1⟩) k).isSome
        then [Event.warnOverwrite k] else []) ++ [Event.logRegistered k] =
      [Event.warnOverwrite k, Event.logRegistered k]
    rw [mapGet_mapSet_self]
    rfl

/-- C3 witness: two registrations of `invoice` on a fresh service. -/
theorem c3_register_last_write_wins_witness :
    PrintService.getTemplate
        ((PrintService.registerTemplate
          ((PrintService.registerTemplate ServiceState.init "invoice" 1 none).1)
          "invoice" 2 none).1) "invoice" =
      some ⟨"invoice", 2, none⟩ ∧
    (PrintService.getRegisteredTemplates
        ((PrintService.registerTemplate
          ((PrintService.registerTemplate ServiceState.init "invoice" 1 none).1)
          "invoice" 2 none).1)).count "invoice" = 1 ∧
    (PrintService.registerTemplate
        ((PrintService.registerTemplate ServiceState.init "invoice" 1 none).1)
        "invoice" 2 none).2 =
      [Event.warnOverwrite "invoice", Event.logRegistered "invoice"] :=
  c3_register_last_write_wins ServiceState.init "invoice" 1 2 none none
    List.nodup_nil

/-- C6 counterexample: with the invoice template registered, `printDirect`
on the key `missing` throws the short message carrying only the key,
while `preview` on the same state and key throws the full diagnostic with
the registered-key list; the two messages differ, so `printDirect` does
not carry the same diagnostic content the claim asserts. -/
theorem c6_counterexample :
    PrintService.printDirect oneTemplateState ⟨"missing", 0, none⟩ =
      .error ("Print template " ++ PrintService.sq ++ "missing" ++
        PrintService.sq ++ " not found") ∧
    PrintService.preview oneTemplateState ⟨"missing", 0, none⟩ =
      .error (PrintService.notFoundMsg "missing" ["invoice"]) ∧
    ("Print template " ++ PrintService.sq ++ "missing" ++ PrintService.sq ++
        " not found") ≠
      PrintService.notFoundMsg "missing" ["invoice"] :=
  ⟨rfl, rfl, by decide⟩

/-- C6 amended: for every key with no registered descriptor, the error
`printDirect` throws carries the requested key in the fixed short message
`Print template <quote>key<quote> not found`, without the registered-key
list that the `preview` diagnostic appends. -/
theorem c6_printDirect_error_carries_key_only (s : ServiceState)
    (config : PrintConfig)
    (h : mapGet s.templateRegistry config.templateKey = none) :
    PrintService.printDirect s config =
      .error ("Print template " ++ PrintService.sq ++ config.templateKey ++
        PrintService.sq ++ " not found") := by
  unfold PrintService.printDirect
  rw [h]

/-- C6 witness: the amended statement on a concrete missing key. -/
theorem c6_printDirect_error_carries_key_only_witness :
    PrintService.printDirect oneTemplateState ⟨"report", 0, none⟩ =
      .error ("Print template " ++ PrintService.sq ++ "report" ++
        PrintService.sq ++ " not found") :=
  c6_printDirect_error_carries_key_only oneTemplateState ⟨"report", 0, none⟩ rfl

/-- C7 counterexample: `print()` on a service with no active session still
schedules the native `window.print` call, so it is not a no-op on the
native print facility (it does, however, raise no error: `print` is
total and leaves the state unchanged). -/
theorem c7_counterexample :
    (PrintService.print ServiceState.init).2 = [Event.nativePrintScheduled] ∧
    Event.nativePrintScheduled ∈ (PrintService.print ServiceState.init).2 ∧
    (PrintService.print ServiceState.init).1 = ServiceState.init :=
  ⟨rfl, by decide, rfl⟩

/-- C7 amended: calling `print()` with no active session raises no fatal
error — it is total, leaves every piece of orchestrator state unchanged —
but it is not a no-op towards the platform: it still schedules the native
print facility after the fixed settling delay. -/
theorem c7_print_without_session (s : ServiceState)
    (_h : s.activeDialogRef = none) :
    PrintService.print s = (s, [Event.nativePrintScheduled]) := rfl

/-- C7 witness: the amended statement on a fresh service. -/
theorem c7_print_without_session_witness :
    PrintService.print ServiceState.init =
      (ServiceState.init, [Event.nativePrintScheduled]) :=
  c7_print_without_session ServiceState.init rfl

/-- C9: `closePreview` is idempotent.  With no active session it does not
throw (`closePreview` is total) and returns the state unchanged with no
events; after any call the active-session reference is `none`, so the
second of two consecutive calls is always such a no-op. -/
theorem c9_closePreview_idempotent (s : ServiceState) :
    (PrintService.closePreview s).1.activeDialogRef = none ∧
    (s.activeDialogRef = none → PrintService.closePreview s = (s, [])) ∧
    PrintService.closePreview (PrintService.closePreview s).1 =
      ((PrintService.closePreview s).1, []) := by
  obtain ⟨reg, act, nid⟩ := s
  cases act <;> simp [PrintService.closePreview]

/-- C9 witness: both calls on a fresh service with no active session. -/
theorem c9_closePreview_idempotent_witness :
    (PrintService.closePreview ServiceState.init).1.activeDialogRef = none ∧
    (ServiceState.init.activeDialogRef = none →
      PrintService.closePreview ServiceState.init = (ServiceState.init, [])) ∧
    PrintService.closePreview (PrintService.closePreview ServiceState.init).1 =
      ((PrintService.closePreview ServiceState.init).1, []) :=
  c9_closePreview_idempotent ServiceState.init

/-- C8: for two successive `preview` calls on one service with both keys
registered, the second call issues exactly one close of the session the
first call opened, that close precedes the open of the new session in
the event order, and afterwards the active-session reference is the new
session and not the previous one. -/
theorem c8_at_most_one_active_session (s : ServiceState)
    (cfgA cfgB : PrintConfig) (tA tB : PrintTemplate)
    (hA : mapGet s.templateRegistry cfgA.templateKey = some tA)
    (hB : mapGet s.templateRegistry cfgB.templateKey = some tB) :
    ∃ sA evA pdA sB evB pdB,
      PrintService.preview s cfgA = .ok (sA, evA, pdA) ∧
      PrintService.preview sA cfgB = .ok (sB, evB, pdB) ∧
      sA.activeDialogRef = some s.nextId ∧
      evB = [Event.closeIssued s.nextId, Event.promiseResolved s.nextId,
        Event.dialogOpened (s.nextId + 1)] ∧
      evB.count (Event.closeIssued s.nextId) = 1 ∧
      sB.activeDialogRef = some (s.nextId + 1) ∧
      sB.activeDialogRef ≠ sA.activeDialogRef := by
  obtain ⟨reg, act, nid⟩ := s
  have hA' : mapGet reg cfgA.templateKey = some tA := hA
  have hB' : mapGet reg cfgB.templateKey = some tB := hB
  have hcount : List.count (Event.closeIssued nid)
      [Event.closeIssued nid, Event.promiseResolved nid,
        Event.dialogOpened (nid + 1)] = 1 := by
    simp [List.count_cons]
  have hne : (some (nid + 1) : Option Nat) ≠ some nid := by
    simp [Nat.succ_ne_self]
  have hsecond : PrintService.preview ⟨reg, some nid, nid + 1⟩ cfgB =
      .ok (⟨reg, some (nid + 1), nid + 2⟩,
        [Event.closeIssued nid, Event.promiseResolved nid,
          Event.dialogOpened (nid + 1)],
        ⟨some tB.component, cfgB.data, mergeDefaultOptions cfgB.options⟩) := by
    rw [preview_eq_of_found (s := ⟨reg, some nid, nid + 1⟩) (t := tB) hB']
  cases act with
  | none =>
    exact ⟨⟨reg, some nid, nid + 1⟩, [Event.dialogOpened nid],
      ⟨some tA.component, cfgA.data, mergeDefaultOptions cfgA.options⟩,
      ⟨reg, some (nid + 1), nid + 2⟩,
      [Event.closeIssued nid, Event.promiseResolved nid,
        Event.dialogOpened (nid + 1)],
      ⟨some tB.component, cfgB.data, mergeDefaultOptions cfgB.options⟩,
      by rw [preview_eq_of_found (s := ⟨reg, none, nid⟩) (t := tA) hA'],
      hsecond, rfl, rfl, hcount, rfl, hne⟩
  | some old =>
    exact ⟨⟨reg, some nid, nid + 1⟩,
      [Event.closeIssued old, Event.promiseResolved old,
        Event.dialogOpened nid],
      ⟨some tA.component, cfgA.data, mergeDefaultOptions cfgA.options⟩,
      ⟨reg, some (nid + 1), nid + 2⟩,
      [Event.closeIssued nid, Event.promiseResolved nid,
        Event.dialogOpened (nid + 1)],
      ⟨some tB.component, cfgB.data, mergeDefaultOptions cfgB.options⟩,
      by rw [preview_eq_of_found (s := ⟨reg, some old, nid⟩) (t := tA) hA'],
      hsecond, rfl, rfl, hcount, rfl, hne⟩

/-- C8 witness: two previews of the registered invoice key on a fresh
single-template service. -/
theorem c8_at_most_one_active_session_witness :
    ∃ sA evA pdA sB evB pdB,
      PrintService.preview oneTemplateState ⟨"invoice", 0, none⟩ =
        .ok (sA, evA, pdA) ∧
      PrintService.preview sA ⟨"invoice", 0, none⟩ = .ok (sB, evB, pdB) ∧
      sA.activeDialogRef = some oneTemplateState.nextId ∧
      evB = [Event.closeIssued oneTemplateState.nextId,
        Event.promiseResolved oneTemplateState.nextId,
        Event.dialogOpened (oneTemplateState.nextId + 1)] ∧
      evB.count (Event.closeIssued oneTemplateState.nextId) = 1 ∧
      sB.activeDialogRef = some (oneTemplateState.nextId + 1) ∧
      sB.activeDialogRef ≠ sA.activeDialogRef :=
  c8_at_most_one_active_session oneTemplateState ⟨"invoice", 0, none⟩
    ⟨"invoice", 0, none⟩ invoiceTemplate invoiceTemplate rfl rfl

/-- C1 counterexample: previewing the registered invoice template
succeeds at lookup; if the mount point is then unavailable the render
host transitions to the failed state (error signal set, loading
cleared), but the promise `preview` returned does not reject: it is
pending while the dialog stays open and resolves once the dialog
closes — it never takes the rejected outcome the claim asserts. -/
theorem c1_counterexample :
    PrintService.preview oneTemplateState ⟨"invoice", 0, none⟩ =
      .ok (⟨[("invoice", invoiceTemplate)], some 0, 1⟩,
        [Event.dialogOpened 0],
        ⟨some invoiceTemplate.component, 0, defaultOptions⟩) ∧
    loadTemplate false ⟨some invoiceTemplate.component, 0, defaultOptions⟩ =
      ⟨false, some loadFailedMsg⟩ ∧
    previewPromiseOutcome false = PromiseOutcome.pending ∧
    previewPromiseOutcome true = PromiseOutcome.resolved ∧
    previewPromiseOutcome true ≠ PromiseOutcome.rejected loadFailedMsg :=
  ⟨rfl, rfl, rfl, rfl, by decide⟩

/-- C1 amended: when the render host cannot obtain a mount point or the
resolved renderer handle is null, the host transitions to the failed
state — error signal set to the load-failure message and `isLoading`
cleared, so it is never stuck at loading — but the promise `preview`
returned does not reject: its only outcomes are pending (dialog still
open) and resolved (dialog closed). -/
theorem c1_mount_failure_fails_without_reject (mountAvailable : Bool)
    (previewData : PrintPreviewData)
    (h : mountAvailable = false ∨ previewData.templateComponent = none) :
    (loadTemplate mountAvailable previewData).isLoading = false ∧
    (loadTemplate mountAvailable previewData).error = some loadFailedMsg ∧
    ∀ (dialogClosed : Bool) (msg : String),
      previewPromiseOutcome dialogClosed ≠ PromiseOutcome.rejected msg := by
  have hload : loadTemplate mountAvailable previewData =
      ⟨false, some loadFailedMsg⟩ := by
    rcases h with h | h
    · subst h; rfl
    · cases mountAvailable
      · rfl
      · simp [loadTemplate, h]
  refine ⟨by rw [hload], by rw [hload], fun dialogClosed msg => ?_⟩
  cases dialogClosed <;> simp [previewPromiseOutcome]

/-- C1 witness: the amended statement at a missing mount point with the
invoice preview data. -/
theorem c1_mount_failure_fails_without_reject_witness :
    (loadTemplate false ⟨some 1, 0, defaultOptions⟩).isLoading = false ∧
    (loadTemplate false ⟨some 1, 0, defaultOptions⟩).error =
      some loadFailedMsg ∧
    ∀ (dialogClosed : Bool) (msg : String),
      previewPromiseOutcome dialogClosed ≠ PromiseOutcome.rejected msg :=
  c1_mount_failure_fails_without_reject false ⟨some 1, 0, defaultOptions⟩
    (Or.inl rfl)

end DynamicPrint
